import Mathlib

/-!
# Error Explorer SDK — scope/context stack and event dispatch, verified

A shallow embedding of the Error Explorer client SDK core: the scoped
context stack (tags, user, breadcrumbs), the bounded breadcrumb ring
buffer, the capture pipeline (context merge, PII policy, transport
hand-off) and the process-wide singleton lifecycle (`init`, `reset`).

The repository ships only the SDK's example application, test fixtures
and Django wiring; the `error_explorer` package itself is not among the
source files. Every definition below is therefore modelled from the
specification document (marked `Modelled from the spec:`), faithful to
its words, and the example/fixture files fix the API shape
(`ErrorExplorer.init`, `push_scope`, `CaptureContext`, the mocked
transport returning `"mock-event-id"`).
-/

namespace ErrorExplorerSDK

/-- Modelled from the spec: breadcrumb `type` enum
(default/debug/user/query/http/navigation), as imported by the example
application (`BreadcrumbType`). -/
inductive BreadcrumbType where
  | default
  | debug
  | user
  | query
  | http
  | navigation
deriving DecidableEq, Repr

/-- Modelled from the spec: breadcrumb `level` enum
(debug/info/warning/error/critical), as imported by the example
application (`BreadcrumbLevel`). -/
inductive BreadcrumbLevel where
  | debug
  | info
  | warning
  | error
  | critical
deriving DecidableEq, Repr

/-- Modelled from the spec: user identity — id, email, username; id must
be present to be meaningful. -/
structure User where
  id : Option String
  email : Option String
  username : Option String
deriving DecidableEq, Repr

/-- A Python `dict[str, str]`: an insertion-ordered association list in
which every key occurs at most once (all dictionaries in the model are
built from `[]` by `dictSet`, which preserves that invariant). -/
abbrev Dict := List (String × String)

/-- Modelled from the spec: Python dictionary assignment `m[k] = v` —
if the key is present its value is updated in place (position kept),
otherwise the pair is appended. -/
def dictSet : Dict → String → String → Dict
  | [], k, v => [(k, v)]
  | (k0, v0) :: rest, k, v =>
    if k0 = k then (k, v) :: rest else (k0, v0) :: dictSet rest k v

/-- Modelled from the spec: Python dictionary lookup — the value at the
first occurrence of the key, if any. -/
def dictGet : Dict → String → Option String
  | [], _ => none
  | (k0, v0) :: rest, k => if k0 = k then some v0 else dictGet rest k

/-- Modelled from the spec: Python `base.update(overlay)` — every pair of
`overlay` is assigned into `base`, later values overriding earlier ones
per key. -/
def dictMerge (base overlay : Dict) : Dict :=
  overlay.foldl (fun acc p => dictSet acc p.1 p.2) base

/-- Modelled from the spec: a breadcrumb — message, category, type,
level, timestamp (assigned at add time when not given) and optional
data. Immutable once added. -/
structure Breadcrumb where
  message : String
  category : String
  btype : BreadcrumbType
  level : BreadcrumbLevel
  timestamp : Option Nat
  data : Dict
deriving DecidableEq, Repr

/-- Modelled from the spec: a scope — an isolated bundle of contextual
state (tags, user, extra, scope-local breadcrumbs). -/
structure Scope where
  tags : Dict
  user : Option User
  extra : Dict
  breadcrumbs : List Breadcrumb
deriving DecidableEq, Repr

/-- The empty scope: no tags, no user, no extra, no breadcrumbs. -/
def Scope.empty : Scope :=
  { tags := [], user := none, extra := [], breadcrumbs := [] }

/-- Modelled from the spec: `set_tag` on a scope mutates only that
scope's local copy. -/
def Scope.setTag (s : Scope) (k v : String) : Scope :=
  { s with tags := dictSet s.tags k v }

/-- Modelled from the spec: `set_user` on a scope replaces that scope's
user wholesale (user is fully replaced, not field-merged). -/
def Scope.setUser (s : Scope) (u : User) : Scope :=
  { s with user := some u }

/-- Modelled from the spec: `add_breadcrumb` on a scope appends to that
scope's local breadcrumb list. -/
def Scope.addBreadcrumb (s : Scope) (b : Breadcrumb) : Scope :=
  { s with breadcrumbs := s.breadcrumbs ++ [b] }

/-- Modelled from the spec: the recognized configuration options —
`token` (required), `project`, `environment`, `release`, `endpoint`,
`hmac_secret`, `debug`, `send_default_pii`, and the breadcrumb buffer
capacity N (default documented value 100). -/
structure Options where
  token : String
  project : String
  environment : String
  release : String
  endpoint : String
  hmacSecret : Option String
  debug : Bool
  sendDefaultPii : Bool
  maxBreadcrumbs : Nat
deriving DecidableEq, Repr

/-- Modelled from the spec: `CaptureContext` — an ephemeral per-call
overlay of tags/extra/user supplied at capture time, merged with the
scope chain only for that single event. -/
structure CaptureContext where
  tags : Dict
  extra : Dict
  user : Option User
deriving DecidableEq, Repr

/-- The empty capture context. -/
def CaptureContext.empty : CaptureContext :=
  { tags := [], extra := [], user := none }

/-- Modelled from the spec: the Event — exception/message payload plus
merged tags, merged user, merged extra and merged breadcrumbs. -/
structure Event where
  exceptionType : Option String
  message : String
  level : String
  tags : Dict
  user : Option User
  extra : Dict
  breadcrumbs : List Breadcrumb
deriving DecidableEq, Repr

/-- Modelled from the spec: `TransportError` — a send failure, caught
internally by the client. -/
inductive TransportError where
  | sendFailed (msg : String)
deriving DecidableEq, Repr

/-- Modelled from the spec: the SDK error taxonomy — `NotInitializedError`
(calling before `init`), `AlreadyInitializedError` (double `init` without
force), `ConfigurationError` (missing/invalid required option, raised
from `init`). -/
inductive SdkError where
  | notInitialized
  | alreadyInitialized
  | configurationError (opt : String)
deriving DecidableEq, Repr

/-- Modelled from the spec: the Transport contract consumed by the
client — `send(serialized_event) -> event_id, fails with TransportError`.
The transport is opaque; it is a parameter of every capture. -/
abbrev SendFn := Event → Except TransportError String

/-- Modelled from the spec: the Client — owns the options, the scope
stack (head of the list is the current/top scope, the last element is
the global/outermost scope), the bounded breadcrumb buffer and a debug
log. `sentEvents` records every invocation of the transport's `send`
(the call log the mocked transport observes); `clock` supplies
breadcrumb timestamps assigned at add time. -/
structure Client where
  options : Options
  scopeStack : List Scope
  breadcrumbs : List Breadcrumb
  sentEvents : List Event
  log : List String
  clock : Nat
deriving DecidableEq, Repr

/-- Modelled from the spec: the freshly constructed client — one global
scope, empty breadcrumb buffer. -/
def mkClient (opts : Options) : Client :=
  { options := opts
    scopeStack := [Scope.empty]
    breadcrumbs := []
    sentEvents := []
    log := []
    clock := 0 }

/-- Apply a function to the last element of a list (the outermost/global
scope in the stack representation). -/
def updateLast (f : Scope → Scope) : List Scope → List Scope
  | [] => []
  | [s] => [f s]
  | s :: rest => s :: updateLast f rest

/-- Apply a function to the head of a list (the current/top scope). -/
def applyTop (f : Scope → Scope) : List Scope → List Scope
  | [] => []
  | s :: rest => f s :: rest

/-- Modelled from the spec: `set_user` on the Client mutates the
outermost (global) scope, not any pushed scope. -/
def Client.setUser (c : Client) (u : User) : Client :=
  { c with scopeStack := updateLast (fun s => s.setUser u) c.scopeStack }

/-- Modelled from the spec: `set_tags` on the Client merges the given
tags into the outermost (global) scope's tags. -/
def Client.setTags (c : Client) (ts : Dict) : Client :=
  { c with scopeStack :=
      updateLast (fun s => { s with tags := dictMerge s.tags ts }) c.scopeStack }

/-- Modelled from the spec: `set_extra` on the Client merges the given
extra data into the outermost (global) scope's extra. -/
def Client.setExtra (c : Client) (ex : Dict) : Client :=
  { c with scopeStack :=
      updateLast (fun s => { s with extra := dictMerge s.extra ex }) c.scopeStack }

/-- Modelled from the spec: assign a timestamp at add time if none was
given on the breadcrumb. -/
def assignTimestamp (t : Nat) (b : Breadcrumb) : Breadcrumb :=
  match b.timestamp with
  | some _ => b
  | none => { b with timestamp := some t }

/-- Modelled from the spec: the bounded ring-buffer append — when the
buffer is full (length has reached the capacity), the oldest entry (the
head; insertion order is oldest first) is evicted before the new
breadcrumb is appended. -/
def ringAdd (cap : Nat) (buf : List Breadcrumb) (b : Breadcrumb) : List Breadcrumb :=
  if buf.length < cap then buf ++ [b] else buf.drop 1 ++ [b]

/-- Modelled from the spec: `add_breadcrumb` on the Client — assigns a
timestamp if none given and appends to the bounded global breadcrumb
buffer, evicting FIFO when full. -/
def Client.addBreadcrumb (c : Client) (b : Breadcrumb) : Client :=
  { c with
    breadcrumbs := ringAdd c.options.maxBreadcrumbs c.breadcrumbs
      (assignTimestamp c.clock b)
    clock := c.clock + 1 }

/-- Modelled from the spec: `push_scope` — duplicates the current
top-of-stack scope (copy, not reference) and pushes it as the new top. -/
def Client.pushScope (c : Client) : Client :=
  { c with scopeStack := c.scopeStack.headD Scope.empty :: c.scopeStack }

/-- Modelled from the spec: popping a scope — the top scope is discarded
and the previous top becomes current again. -/
def Client.popScope (c : Client) : Client :=
  { c with scopeStack := c.scopeStack.tail }

/-- The operations the scope handle returned by `push_scope` exposes to
the scoped block: `set_tag`, `set_user`, `add_breadcrumb`. -/
inductive ScopeOp where
  | setTag (k v : String)
  | setUser (u : User)
  | addCrumb (b : Breadcrumb)

/-- A scope-handle operation acts on the current (top) scope only. -/
def Client.applyScopeOp (c : Client) (op : ScopeOp) : Client :=
  match op with
  | .setTag k v => { c with scopeStack := applyTop (fun s => s.setTag k v) c.scopeStack }
  | .setUser u => { c with scopeStack := applyTop (fun s => s.setUser u) c.scopeStack }
  | .addCrumb b => { c with scopeStack := applyTop (fun s => s.addBreadcrumb b) c.scopeStack }

/-- Run a sequence of scope-handle operations (the body of a
`with push_scope()` block). -/
def Client.runScopeOps (c : Client) (ops : List ScopeOp) : Client :=
  ops.foldl Client.applyScopeOp c

/-- Modelled from the spec: the `with client.push_scope()` block —
acquire on entry (push a copy of the current top), run the body, and
release on every exit path: the scope is popped whether the body
completed normally (`raises = false`) or an exception escaped it
(`raises = true`); any exception re-propagates only after the pop. -/
def Client.withScope (c : Client) (ops : List ScopeOp) (raises : Bool) :
    Client × Bool :=
  ((c.pushScope.runScopeOps ops).popScope, raises)

/-- The global (outermost) scope: the bottom of the scope stack. -/
def Client.globalScope (c : Client) : Option Scope :=
  c.scopeStack.getLast?

/-- Modelled from the spec: reading the current tags for a capture —
merge from the bottom of the stack to the top, later (more nested)
values overriding earlier (outer) values per key, with the capture-time
context overlay applied last. -/
def mergedTags (c : Client) (ctx : CaptureContext) : Dict :=
  dictMerge (c.scopeStack.reverse.foldl (fun acc s => dictMerge acc s.tags) []) ctx.tags

/-- Modelled from the spec: merged extra data, analogous to tags. -/
def mergedExtra (c : Client) (ctx : CaptureContext) : Dict :=
  dictMerge (c.scopeStack.reverse.foldl (fun acc s => dictMerge acc s.extra) []) ctx.extra

/-- Modelled from the spec: the merged user — fully replaced (not
field-merged) by the most specific scope that set one; the capture-time
context's user, when given, is the most specific of all. -/
def mergedUser (c : Client) (ctx : CaptureContext) : Option User :=
  match ctx.user with
  | some u => some u
  | none => c.scopeStack.findSome? (fun s => s.user)

/-- Modelled from the spec: merged breadcrumbs — the global buffer plus
scope-local additions. -/
def mergedBreadcrumbs (c : Client) : List Breadcrumb :=
  c.breadcrumbs ++ c.scopeStack.reverse.foldl (fun acc s => acc ++ s.breadcrumbs) []

/-- Modelled from the spec: the PII policy — if `send_default_pii` is
false, user email/username are stripped before merge into any Event; the
id is retained if present. -/
def stripPii (sendDefaultPii : Bool) (u : User) : User :=
  if sendDefaultPii then u
  else { id := u.id, email := none, username := none }

/-- Modelled from the spec: event construction — the payload plus the
merged context, with the PII policy enforced in the Client. -/
def Client.buildEvent (c : Client) (exceptionType : Option String)
    (message level : String) (ctx : CaptureContext) : Event :=
  { exceptionType := exceptionType
    message := message
    level := level
    tags := mergedTags c ctx
    user := (mergedUser c ctx).map (stripPii c.options.sendDefaultPii)
    extra := mergedExtra c ctx
    breadcrumbs := mergedBreadcrumbs c }

/-- Modelled from the spec: the shared capture pipeline — build the
event, hand it to the Transport's `send` (recorded in `sentEvents`), and
return the transport-assigned event id; a transport failure is never
propagated: it yields `none` and is logged only when `debug` is true. -/
def Client.capture (c : Client) (send : SendFn) (exceptionType : Option String)
    (message level : String) (ctx : CaptureContext) : Client × Option String :=
  let ev := c.buildEvent exceptionType message level ctx
  let c1 := { c with sentEvents := c.sentEvents ++ [ev] }
  match send ev with
  | Except.ok eid => (c1, some eid)
  | Except.error _ =>
    (if c1.options.debug then { c1 with log := c1.log ++ ["transport send failed"] }
     else c1, none)

/-- Modelled from the spec: the extracted exception value — type and
message (stack trace elided as platform-specific). -/
structure ExceptionInfo where
  etype : String
  emessage : String
deriving DecidableEq, Repr

/-- Modelled from the spec: `capture_exception(exc, context=None)` —
the shared capture pipeline with an exception payload at level error. -/
def Client.captureException (c : Client) (send : SendFn) (e : ExceptionInfo)
    (ctx : CaptureContext) : Client × Option String :=
  c.capture send (some e.etype) e.emessage "error" ctx

/-- Modelled from the spec: `capture_message(text, level="info",
context=None)` — the same merge/send pipeline, no exception payload. -/
def Client.captureMessage (c : Client) (send : SendFn) (text level : String)
    (ctx : CaptureContext) : Client × Option String :=
  c.capture send none text level ctx

/-- The process-wide singleton holder: `none` while no client instance
exists (before any `init`, or after `reset`). -/
abbrev GlobalState := Option Client

/-- Modelled from the spec: `ErrorExplorer.init(options)` — fails with
`AlreadyInitializedError` if an instance exists and force-reinit is not
requested; otherwise validates the required options (token, project
non-empty), failing with `ConfigurationError`, and constructs and
returns the singleton client. -/
def ErrorExplorer.init (g : GlobalState) (opts : Options) (force : Bool) :
    Except SdkError Client :=
  if g.isSome && !force then Except.error SdkError.alreadyInitialized
  else if opts.token = "" then Except.error (SdkError.configurationError "token")
  else if opts.project = "" then Except.error (SdkError.configurationError "project")
  else Except.ok (mkClient opts)

/-- Modelled from the spec: `ErrorExplorer.reset()` — tears down the
singleton, discarding scope stack and breadcrumb buffer. Idempotent and
total: it succeeds from every state, including when no instance exists
(the test fixtures call it unconditionally before any `init`). -/
def ErrorExplorer.reset (_g : GlobalState) : Except SdkError GlobalState :=
  Except.ok none

/-- The global state after `ErrorExplorer.reset()` (reset never fails,
so the error branch is vacuous). -/
def ErrorExplorer.afterReset (g : GlobalState) : GlobalState :=
  match ErrorExplorer.reset g with
  | Except.ok g2 => g2
  | Except.error _ => g

/-- Modelled from the spec: `capture_exception` on the singleton —
fails with `NotInitializedError` while no instance exists. -/
def ErrorExplorer.captureException (g : GlobalState) (send : SendFn)
    (e : ExceptionInfo) (ctx : CaptureContext) :
    Except SdkError (Client × Option String) :=
  match g with
  | none => Except.error SdkError.notInitialized
  | some c => Except.ok (c.captureException send e ctx)

/-- Modelled from the spec: `capture_message` on the singleton — fails
with `NotInitializedError` while no instance exists. -/
def ErrorExplorer.captureMessage (g : GlobalState) (send : SendFn)
    (text level : String) (ctx : CaptureContext) :
    Except SdkError (Client × Option String) :=
  match g with
  | none => Except.error SdkError.notInitialized
  | some c => Except.ok (c.captureMessage send text level ctx)

/-- Modelled from the spec: `add_breadcrumb` on the singleton — fails
with `NotInitializedError` while no instance exists. -/
def ErrorExplorer.addBreadcrumb (g : GlobalState) (b : Breadcrumb) :
    Except SdkError Client :=
  match g with
  | none => Except.error SdkError.notInitialized
  | some c => Except.ok (c.addBreadcrumb b)

/-- Options mirroring the core test fixture (`conftest.py`'s
`initialized_client`): token `"test_token_12345"`, project
`"test-project"`, default breadcrumb capacity 100. -/
def coreTestOptions : Options :=
  { token := "test_token_12345"
    project := "test-project"
    environment := "test"
    release := ""
    endpoint := ""
    hmacSecret := none
    debug := false
    sendDefaultPii := true
    maxBreadcrumbs := 100 }

/-- Small-capacity options for exercising breadcrumb eviction: capacity 2. -/
def smallBufOptions : Options :=
  { token := "t"
    project := "p"
    environment := "test"
    release := "1.0.0"
    endpoint := "http://localhost"
    hmacSecret := none
    debug := false
    sendDefaultPii := true
    maxBreadcrumbs := 2 }

/-- Options with `send_default_pii = False`, as in the Django test
settings (`ERROR_EXPLORER`). -/
def noPiiOptions : Options :=
  { token := "test_token"
    project := "test-project"
    environment := "test"
    release := "1.0.0"
    endpoint := ""
    hmacSecret := none
    debug := true
    sendDefaultPii := false
    maxBreadcrumbs := 100 }

/-- A simple breadcrumb with the given message and no timestamp. -/
def crumb (msg : String) : Breadcrumb :=
  { message := msg
    category := "test"
    btype := BreadcrumbType.default
    level := BreadcrumbLevel.info
    timestamp := none
    data := [] }

/-- The user set by the example application. -/
def demoUser : User :=
  { id := some "12345", email := some "developer@example.com", username := some "dev_user" }

/-- A transport whose `send` always fails. -/
def failSend : SendFn := fun _ => Except.error (TransportError.sendFailed "boom")

/-- The timestamps the client will assign to a list of breadcrumbs added
consecutively starting at clock value `t` (each add advances the clock). -/
def stampAll (t : Nat) : List Breadcrumb → List Breadcrumb
  | [] => []
  | b :: bs => assignTimestamp t b :: stampAll (t + 1) bs

/-- The client of the spec's merge-precedence example: global tags
`{a:1}` set via `set_tags`, then a pushed scope whose handle set
`a := 2` and `b := 3`. -/
def mergeExampleClient : Client :=
  ((((mkClient coreTestOptions).setTags (dictSet [] "a" "1")).pushScope).applyScopeOp
      (ScopeOp.setTag "a" "2")).applyScopeOp (ScopeOp.setTag "b" "3")

/-- The capture-time context of the merge-precedence example: tags `{b:4}`. -/
def mergeExampleContext : CaptureContext :=
  { tags := dictSet [] "b" "4", extra := [], user := none }

/-- Three breadcrumbs, for exercising a capacity-2 buffer. -/
def crumbs3 : List Breadcrumb := [crumb "one", crumb "two", crumb "three"]

section Lemmas

/-- `applyTop` never touches anything below the top of the stack. -/
theorem applyTop_tail (f : Scope → Scope) (l : List Scope) :
    (applyTop f l).tail = l.tail := by
  cases l <;> rfl

/-- A scope-handle operation never touches anything below the top scope. -/
theorem applyScopeOp_scopeStack_tail (c : Client) (op : ScopeOp) :
    (c.applyScopeOp op).scopeStack.tail = c.scopeStack.tail := by
  cases op <;> simp [Client.applyScopeOp, applyTop_tail]

/-- A whole scoped block's body never touches anything below the top scope. -/
theorem runScopeOps_scopeStack_tail (ops : List ScopeOp) :
    ∀ c : Client, (c.runScopeOps ops).scopeStack.tail = c.scopeStack.tail := by
  induction ops with
  | nil => intro c; rfl
  | cons op ops ih =>
    intro c
    have h1 : c.runScopeOps (op :: ops) = (c.applyScopeOp op).runScopeOps ops := rfl
    rw [h1, ih, applyScopeOp_scopeStack_tail]

/-- A balanced `with push_scope()` block restores the scope stack exactly,
on both the normal and the exceptional exit path. -/
theorem withScope_scopeStack (c : Client) (ops : List ScopeOp) (raises : Bool) :
    (c.withScope ops raises).1.scopeStack = c.scopeStack := by
  show ((c.pushScope.runScopeOps ops).popScope).scopeStack = c.scopeStack
  show (c.pushScope.runScopeOps ops).scopeStack.tail = c.scopeStack
  rw [runScopeOps_scopeStack_tail]
  rfl

/-- Any sequence of balanced scoped blocks restores the scope stack. -/
theorem foldl_withScope_scopeStack (blocks : List (List ScopeOp × Bool)) :
    ∀ c : Client,
      (blocks.foldl (fun a pb => (a.withScope pb.1 pb.2).1) c).scopeStack = c.scopeStack := by
  induction blocks with
  | nil => intro c; rfl
  | cons pb blocks ih =>
    intro c
    have h1 : (pb :: blocks).foldl (fun a pb => (a.withScope pb.1 pb.2).1) c
        = blocks.foldl (fun a pb => (a.withScope pb.1 pb.2).1) (c.withScope pb.1 pb.2).1 := rfl
    rw [h1, ih, withScope_scopeStack]

/-- Assigning into a dictionary makes the key map to the assigned value. -/
theorem dictGet_dictSet_self (m : Dict) (k v : String) :
    dictGet (dictSet m k v) k = some v := by
  induction m with
  | nil => simp [dictSet, dictGet]
  | cons p rest ih =>
    obtain ⟨k0, v0⟩ := p
    by_cases h : k0 = k <;> simp [dictSet, dictGet, h, ih]

end Lemmas

/-- C1: for every sequence of push_scope/pop operations on an initialized
Client, the global (outermost) scope's tags are identical after the pushed
scope exits to what they were before the push, including when the scoped
block exits via a raised exception (`raises = true`); the scope is popped
on every exit path and the previous top of the scope stack becomes current
again (the whole stack is restored). -/
theorem withScope_restores_global (c : Client) (ops : List ScopeOp) (raises : Bool) :
    (c.withScope ops raises).1.scopeStack = c.scopeStack ∧
    (c.withScope ops raises).1.globalScope = c.globalScope ∧
    ((c.withScope ops raises).1.globalScope).map Scope.tags
      = (c.globalScope).map Scope.tags ∧
    ∀ blocks : List (List ScopeOp × Bool),
      (blocks.foldl (fun a pb => (a.withScope pb.1 pb.2).1) c).scopeStack
        = c.scopeStack := by
  refine ⟨withScope_scopeStack c ops raises, ?_, ?_, fun blocks => foldl_withScope_scopeStack blocks c⟩
  · show (c.withScope ops raises).1.scopeStack.getLast? = c.scopeStack.getLast?
    rw [withScope_scopeStack]
  · show ((c.withScope ops raises).1.scopeStack.getLast?).map Scope.tags
      = (c.scopeStack.getLast?).map Scope.tags
    rw [withScope_scopeStack]

/-- C2: the merged context is computed bottom-of-stack to top with later
(more nested) values overriding earlier (outer) values per key, and the
capture-time context overlay applied last: with outer scope tags `{a:1}`,
inner scope tags `{a:2,b:3}` and capture-time context tags `{b:4}`, the
merged tags on the constructed event equal `{a:2,b:4}`; in general the
capture-time overlay, applied last, wins for its key. -/
theorem merge_precedence_example :
    mergedTags mergeExampleClient mergeExampleContext = [("a", "2"), ("b", "4")] ∧
    (mergeExampleClient.buildEvent none "Application checkpoint reached" "info"
        mergeExampleContext).tags = [("a", "2"), ("b", "4")] ∧
    ∀ (base : Dict) (k v : String), dictGet (dictMerge base [(k, v)]) k = some v := by
  refine ⟨by decide, by decide, ?_⟩
  intro base k v
  exact dictGet_dictSet_self base k v

/-- C6: calling capture_exception (or any other Client method) while the
Client is in the Uninitialized state — before any init(), or after init()
followed by reset() — fails with NotInitializedError. -/
theorem capture_before_init_fails (send : SendFn) (e : ExceptionInfo)
    (text lvl : String) (ctx : CaptureContext) (b : Breadcrumb) (g : GlobalState) :
    ErrorExplorer.captureException none send e ctx
      = Except.error SdkError.notInitialized ∧
    ErrorExplorer.captureMessage none send text lvl ctx
      = Except.error SdkError.notInitialized ∧
    ErrorExplorer.addBreadcrumb none b = Except.error SdkError.notInitialized ∧
    ErrorExplorer.captureException (ErrorExplorer.afterReset g) send e ctx
      = Except.error SdkError.notInitialized ∧
    ErrorExplorer.captureMessage (ErrorExplorer.afterReset g) send text lvl ctx
      = Except.error SdkError.notInitialized :=
  ⟨rfl, rfl, rfl, rfl, rfl⟩

/-- C7: init(options) fails with AlreadyInitializedError when an instance
exists and force-reinit is not requested; otherwise it validates the
required options, failing with ConfigurationError when token or project
is missing/empty, and else constructs and returns the singleton client. -/
theorem init_validation (g : GlobalState) (opts : Options) (force : Bool) :
    (g.isSome = true → force = false →
      ErrorExplorer.init g opts force = Except.error SdkError.alreadyInitialized) ∧
    ((g = none ∨ force = true) → opts.token = "" →
      ErrorExplorer.init g opts force
        = Except.error (SdkError.configurationError "token")) ∧
    ((g = none ∨ force = true) → opts.token ≠ "" → opts.project = "" →
      ErrorExplorer.init g opts force
        = Except.error (SdkError.configurationError "project")) ∧
    ((g = none ∨ force = true) → opts.token ≠ "" → opts.project ≠ "" →
      ErrorExplorer.init g opts force = Except.ok (mkClient opts)) := by
  refine ⟨?_, ?_, ?_, ?_⟩
  · intro hg hf
    simp [ErrorExplorer.init, hg, hf]
  · intro hgf ht
    rcases hgf with hg | hf
    · subst hg; simp [ErrorExplorer.init, ht]
    · subst hf; simp [ErrorExplorer.init, ht]
  · intro hgf ht hp
    rcases hgf with hg | hf
    · subst hg; simp [ErrorExplorer.init, ht, hp]
    · subst hf; simp [ErrorExplorer.init, ht, hp]
  · intro hgf ht hp
    rcases hgf with hg | hf
    · subst hg; simp [ErrorExplorer.init, ht, hp]
    · subst hf; simp [ErrorExplorer.init, ht, hp]

/-- Witness for C7: the three outcomes of `init` at concrete inputs —
double init without force, empty token, and a successful construction. -/
theorem init_validation_witness :
    ErrorExplorer.init (some (mkClient coreTestOptions)) coreTestOptions false
      = Except.error SdkError.alreadyInitialized ∧
    ErrorExplorer.init none
        { coreTestOptions with token := "" } false
      = Except.error (SdkError.configurationError "token") ∧
    ErrorExplorer.init none coreTestOptions false
      = Except.ok (mkClient coreTestOptions) :=
  ⟨(init_validation (some (mkClient coreTestOptions)) coreTestOptions false).1 rfl rfl,
   (init_validation none { coreTestOptions with token := "" } false).2.1 (Or.inl rfl) rfl,
   (init_validation none coreTestOptions false).2.2.2 (Or.inl rfl)
     (by decide) (by decide)⟩

/-- C10: ErrorExplorer.reset() may be called while the Client is
Uninitialized — before any init() has ever run — and completes without
raising any error: it succeeds (returns ok) from every state, as the test
fixtures rely on by calling reset() unconditionally before every test. -/
theorem reset_without_init_succeeds :
    ErrorExplorer.reset (none : GlobalState) = Except.ok none ∧
    ∀ g : GlobalState, ErrorExplorer.reset g = Except.ok none :=
  ⟨rfl, fun _ => rfl⟩

/-- The ring-buffer append keeps the buffer within its capacity. -/
theorem ringAdd_length_le (cap : Nat) (buf : List Breadcrumb) (b : Breadcrumb)
    (hcap : 0 < cap) (hb : buf.length ≤ cap) : (ringAdd cap buf b).length ≤ cap := by
  unfold ringAdd
  split
  · simp
    omega
  · simp
    omega

/-- Folding ring-buffer appends over a list keeps exactly the most recent
`cap` elements: the result is the concatenation with everything before the
last `cap` elements dropped. -/
theorem foldl_ringAdd_drop (cap : Nat) (hcap : 0 < cap) :
    ∀ (bs buf : List Breadcrumb), buf.length ≤ cap →
      bs.foldl (ringAdd cap) buf = (buf ++ bs).drop (buf.length + bs.length - cap) := by
  intro bs
  induction bs with
  | nil =>
    intro buf hb
    simp [Nat.sub_eq_zero_of_le hb]
  | cons b bs ih =>
    intro buf hb
    rw [List.foldl_cons]
    by_cases hlt : buf.length < cap
    · rw [show ringAdd cap buf b = buf ++ [b] from if_pos hlt]
      rw [ih (buf ++ [b]) (by simp; omega)]
      have h1 : (buf ++ [b]) ++ bs = buf ++ b :: bs := by simp
      have h2 : (buf ++ [b]).length + bs.length - cap
          = buf.length + (b :: bs).length - cap := by simp; omega
      rw [h1, h2]
    · rw [show ringAdd cap buf b = buf.drop 1 ++ [b] from if_neg hlt]
      have heq : buf.length = cap := le_antisymm hb (not_lt.mp hlt)
      have hbuf : 1 ≤ buf.length := by omega
      rw [ih (buf.drop 1 ++ [b]) (by simp; omega)]
      have h1 : (buf.drop 1 ++ [b]) ++ bs = buf.drop 1 ++ b :: bs := by simp
      have h2 : (buf.drop 1 ++ [b]).length + bs.length - cap = bs.length := by
        simp
        omega
      have h3 : buf.length + (b :: bs).length - cap = bs.length + 1 := by
        simp
        omega
      rw [h1, h2, h3]
      calc (buf.drop 1 ++ b :: bs).drop bs.length
          = ((buf ++ b :: bs).drop 1).drop bs.length := by
            rw [List.drop_append_of_le_length hbuf]
        _ = (buf ++ b :: bs).drop (bs.length + 1) := by
            rw [List.drop_drop, Nat.add_comm]

/-- `stampAll` does not change the number of breadcrumbs. -/
theorem stampAll_length (bs : List Breadcrumb) :
    ∀ t : Nat, (stampAll t bs).length = bs.length := by
  induction bs with
  | nil => intro t; rfl
  | cons b bs ih => intro t; simp [stampAll, ih]

/-- Adding breadcrumbs through the Client is the ring-buffer fold over the
timestamp-stamped breadcrumbs. -/
theorem addBreadcrumb_foldl_breadcrumbs (bs : List Breadcrumb) :
    ∀ c : Client,
      (bs.foldl Client.addBreadcrumb c).breadcrumbs
        = (stampAll c.clock bs).foldl (ringAdd c.options.maxBreadcrumbs) c.breadcrumbs := by
  induction bs with
  | nil => intro c; rfl
  | cons b bs ih =>
    intro c
    rw [List.foldl_cons, ih (c.addBreadcrumb b)]
    rfl

/-- C3: for a breadcrumb buffer of fixed capacity N, after any sequence of
N+k add_breadcrumb calls (k>0) starting from an empty buffer with no
intervening reset, the buffer contains exactly the last N breadcrumbs
added (with their add-time timestamps), read out in insertion order; and
each add when the buffer is full evicts exactly the oldest entry (the
head, FIFO) before appending. -/
theorem breadcrumb_buffer_keeps_last (c : Client) (bs : List Breadcrumb) (k : Nat)
    (hcap : 0 < c.options.maxBreadcrumbs)
    (hempty : c.breadcrumbs = [])
    (hlen : bs.length = c.options.maxBreadcrumbs + k)
    (_hk : 0 < k) :
    (bs.foldl Client.addBreadcrumb c).breadcrumbs = (stampAll c.clock bs).drop k ∧
    (bs.foldl Client.addBreadcrumb c).breadcrumbs.length = c.options.maxBreadcrumbs ∧
    ∀ (buf : List Breadcrumb) (b : Breadcrumb),
      buf.length = c.options.maxBreadcrumbs →
        ringAdd c.options.maxBreadcrumbs buf b = buf.drop 1 ++ [b] := by
  have hmain : (bs.foldl Client.addBreadcrumb c).breadcrumbs
      = (stampAll c.clock bs).drop k := by
    rw [addBreadcrumb_foldl_breadcrumbs bs c, hempty]
    rw [foldl_ringAdd_drop c.options.maxBreadcrumbs hcap (stampAll c.clock bs) []
      (by simp)]
    have h1 : ([] : List Breadcrumb).length + (stampAll c.clock bs).length
        - c.options.maxBreadcrumbs = k := by
      rw [stampAll_length bs c.clock, hlen]
      simp
    rw [h1]
    rfl
  refine ⟨hmain, ?_, ?_⟩
  · rw [hmain]
    rw [List.length_drop, stampAll_length bs c.clock, hlen]
    omega
  · intro buf b hbuf
    unfold ringAdd
    rw [if_neg (by omega)]

/-- Witness for C3: with capacity 2 and three adds, only the last two
breadcrumbs remain, and the full-buffer add evicts the head. -/
theorem breadcrumb_buffer_keeps_last_witness :
    (crumbs3.foldl Client.addBreadcrumb (mkClient smallBufOptions)).breadcrumbs
      = (stampAll (mkClient smallBufOptions).clock crumbs3).drop 1 ∧
    (crumbs3.foldl Client.addBreadcrumb (mkClient smallBufOptions)).breadcrumbs.length
      = (mkClient smallBufOptions).options.maxBreadcrumbs ∧
    ringAdd (mkClient smallBufOptions).options.maxBreadcrumbs
        [crumb "one", crumb "two"] (crumb "three")
      = [crumb "one", crumb "two"].drop 1 ++ [crumb "three"] :=
  ⟨(breadcrumb_buffer_keeps_last (mkClient smallBufOptions) crumbs3 1
      (by decide) rfl (by decide) (by decide)).1,
   (breadcrumb_buffer_keeps_last (mkClient smallBufOptions) crumbs3 1
      (by decide) rfl (by decide) (by decide)).2.1,
   (breadcrumb_buffer_keeps_last (mkClient smallBufOptions) crumbs3 1
      (by decide) rfl (by decide) (by decide)).2.2
     [crumb "one", crumb "two"] (crumb "three") (by decide)⟩

/-- C4: with send_default_pii=False, every constructed event's user field
contains no email and no username, even when a user with email/username
was set via set_user; the user id, if present, is retained. -/
theorem capture_strips_pii (c : Client) (u : User) (et : Option String)
    (msg lvl : String) (ctx : CaptureContext)
    (hpii : c.options.sendDefaultPii = false) :
    (∀ v ∈ (c.buildEvent et msg lvl ctx).user, v.email = none ∧ v.username = none) ∧
    ((c.buildEvent et msg lvl ctx).user).map User.id
      = (mergedUser c ctx).map User.id ∧
    (∀ s : Scope, c.scopeStack = [s] → ctx.user = none →
      ((c.setUser u).buildEvent et msg lvl ctx).user
        = some { id := u.id, email := none, username := none }) := by
  refine ⟨?_, ?_, ?_⟩
  · intro v hv
    cases hmu : mergedUser c ctx with
    | none => simp [Client.buildEvent, hmu] at hv
    | some w =>
      simp [Client.buildEvent, hmu, stripPii, hpii] at hv
      rw [← hv]
      exact ⟨rfl, rfl⟩
  · cases hmu : mergedUser c ctx with
    | none => simp [Client.buildEvent, hmu]
    | some w => simp [Client.buildEvent, hmu, stripPii, hpii]
  · intro s hs hcu
    have hstack : (c.setUser u).scopeStack = [s.setUser u] := by
      simp [Client.setUser, hs, updateLast]
    have hopts : (c.setUser u).options = c.options := rfl
    have hmu : mergedUser (c.setUser u) ctx = some u := by
      simp [mergedUser, hcu, hstack, List.findSome?, Scope.setUser]
    simp [Client.buildEvent, hmu, stripPii, hopts, hpii]

/-- Witness for C4: the Django test settings' no-PII client, with the
example application's user (id, email and username all set): the captured
event retains the id and drops email and username. -/
theorem capture_strips_pii_witness :
    (((mkClient noPiiOptions).setUser demoUser).buildEvent none "m" "info"
        CaptureContext.empty).user
      = some { id := some "12345", email := none, username := none } :=
  (capture_strips_pii (mkClient noPiiOptions) demoUser none "m" "info"
      CaptureContext.empty rfl).2.2 Scope.empty rfl rfl

/-- The shared capture pipeline returns the transport id on success and
absorbs a transport failure: the result is `none` and the failure is
logged exactly when `debug` is true. -/
theorem capture_result (c : Client) (send : SendFn) (et : Option String)
    (msg lvl : String) (ctx : CaptureContext) :
    (∀ eid, send (c.buildEvent et msg lvl ctx) = Except.ok eid →
      (c.capture send et msg lvl ctx).2 = some eid) ∧
    (∀ err, send (c.buildEvent et msg lvl ctx) = Except.error err →
      (c.capture send et msg lvl ctx).2 = none ∧
      ((c.capture send et msg lvl ctx).1.log = c.log ↔ c.options.debug = false)) := by
  constructor
  · intro eid h
    simp [Client.capture, h]
  · intro err h
    refine ⟨by simp [Client.capture, h], ?_⟩
    cases hd : c.options.debug with
    | false => simp [Client.capture, h, hd]
    | true =>
      simp [Client.capture, h, hd]

/-- C5: for every input exception value and every client state,
capture_exception (and capture_message) returns normally — some id on a
successful send, none when the Transport's send fails — and the failure
is never propagated to the caller; it is logged (the debug log grows)
exactly when the debug option is true and otherwise silently absorbed. -/
theorem capture_never_raises (c : Client) (send : SendFn) (e : ExceptionInfo)
    (text lvl : String) (ctx : CaptureContext) :
    ((∀ eid, send (c.buildEvent (some e.etype) e.emessage "error" ctx) = Except.ok eid →
        (c.captureException send e ctx).2 = some eid) ∧
     (∀ err, send (c.buildEvent (some e.etype) e.emessage "error" ctx) = Except.error err →
        (c.captureException send e ctx).2 = none ∧
        ((c.captureException send e ctx).1.log = c.log ↔ c.options.debug = false))) ∧
    ((∀ eid, send (c.buildEvent none text lvl ctx) = Except.ok eid →
        (c.captureMessage send text lvl ctx).2 = some eid) ∧
     (∀ err, send (c.buildEvent none text lvl ctx) = Except.error err →
        (c.captureMessage send text lvl ctx).2 = none ∧
        ((c.captureMessage send text lvl ctx).1.log = c.log ↔ c.options.debug = false))) :=
  ⟨capture_result c send (some e.etype) e.emessage "error" ctx,
   capture_result c send none text lvl ctx⟩

/-- Witness for C5: a transport whose send always fails — the capture
call still returns, with no event id, and (debug off) an unchanged log. -/
theorem capture_never_raises_witness :
    ((mkClient smallBufOptions).captureException failSend
        { etype := "ValueError", emessage := "bad" } CaptureContext.empty).2 = none ∧
    (((mkClient smallBufOptions).captureException failSend
        { etype := "ValueError", emessage := "bad" } CaptureContext.empty).1.log
      = (mkClient smallBufOptions).log ↔
        (mkClient smallBufOptions).options.debug = false) :=
  (capture_never_raises (mkClient smallBufOptions) failSend
      { etype := "ValueError", emessage := "bad" } "x" "info" CaptureContext.empty).1.2
    (TransportError.sendFailed "boom") rfl

/-- C8: reset() is idempotent — it never fails, a second call is a no-op
(both calls leave the empty singleton state, discarding the client with
its scope stack and breadcrumb buffer), and afterwards init() succeeds
again. -/
theorem reset_idempotent (g : GlobalState) (opts : Options) :
    ErrorExplorer.reset g = Except.ok none ∧
    (∀ g2, ErrorExplorer.reset g = Except.ok g2 →
      ErrorExplorer.reset g2 = Except.ok none ∧ g2 = none) ∧
    (opts.token ≠ "" → opts.project ≠ "" →
      ErrorExplorer.init (ErrorExplorer.afterReset g) opts false
        = Except.ok (mkClient opts)) := by
  refine ⟨rfl, ?_, ?_⟩
  · intro g2 h
    cases h
    exact ⟨rfl, rfl⟩
  · intro ht hp
    simp [ErrorExplorer.afterReset, ErrorExplorer.reset, ErrorExplorer.init, ht, hp]

/-- Witness for C8: reset of a live client succeeds, and init succeeds
again right after the reset. -/
theorem reset_idempotent_witness :
    ErrorExplorer.reset (some (mkClient smallBufOptions)) = Except.ok none ∧
    ErrorExplorer.init (ErrorExplorer.afterReset (some (mkClient smallBufOptions)))
        smallBufOptions false = Except.ok (mkClient smallBufOptions) :=
  ⟨(reset_idempotent (some (mkClient smallBufOptions)) smallBufOptions).1,
   (reset_idempotent (some (mkClient smallBufOptions)) smallBufOptions).2.2
     (by decide) (by decide)⟩

/-- C9: after a successful init with non-empty token and project, a single
capture_message("hello") call returns the non-empty transport-assigned
event id and causes exactly one invocation of the Transport's send. -/
theorem capture_message_single_send (opts : Options) (tid : String)
    (h1 : opts.token ≠ "") (h2 : opts.project ≠ "") (h3 : tid ≠ "") :
    ErrorExplorer.init none opts false = Except.ok (mkClient opts) ∧
    ((mkClient opts).captureMessage (fun _ => Except.ok tid) "hello" "info"
        CaptureContext.empty).2 = some tid ∧
    ((mkClient opts).captureMessage (fun _ => Except.ok tid) "hello" "info"
        CaptureContext.empty).2 ≠ some "" ∧
    ((mkClient opts).captureMessage (fun _ => Except.ok tid) "hello" "info"
        CaptureContext.empty).1.sentEvents.length = 1 := by
  refine ⟨?_, rfl, ?_, rfl⟩
  · simp [ErrorExplorer.init, h1, h2]
  · show some tid ≠ some ""
    simpa using h3

/-- Witness for C9: the core test fixture's options and the mocked
transport's id `"mock-event-id"`. -/
theorem capture_message_single_send_witness :
    ErrorExplorer.init none coreTestOptions false = Except.ok (mkClient coreTestOptions) ∧
    ((mkClient coreTestOptions).captureMessage (fun _ => Except.ok "mock-event-id")
        "hello" "info" CaptureContext.empty).2 = some "mock-event-id" ∧
    ((mkClient coreTestOptions).captureMessage (fun _ => Except.ok "mock-event-id")
        "hello" "info" CaptureContext.empty).2 ≠ some "" ∧
    ((mkClient coreTestOptions).captureMessage (fun _ => Except.ok "mock-event-id")
        "hello" "info" CaptureContext.empty).1.sentEvents.length = 1 :=
  capture_message_single_send coreTestOptions "mock-event-id"
    (by decide) (by decide) (by decide)

end ErrorExplorerSDK
